import Mathlib

/-!
Verification of the résumé-scoring core of Resume-fit-Analyzer
(backend/app.py) against its specification.

The embedding follows the source closely:

* `extract_text` branches on the file-path suffix and delegates to the
  pdfplumber / python-docx libraries, modelled here as function
  parameters returning `Except Unit String` (they may raise).
* `analyze_resume` lower-cases both texts, tokenizes them with the
  spaCy model (modelled as an abstract `NLP` value producing tokens
  with a lemma and an is_alpha flag), builds the two lemma sets, and
  computes the five integer score fields.  Python float arithmetic on
  these small formulas is modelled with exact rationals `ℚ`; the
  Python `int(...)` truncation is `truncInt`.
* the `/analyze` route body (extraction, analysis, persistence) is
  `analyzeRoute`; the spaCy invocations inside the analysis can raise
  (modelled by `analyzeStep` with an `nlpOk` success predicate) and the
  database insert is an append to a list of `AnalysisRow` that can be
  switched to fail.
-/

/-- ASCII lower-casing of one character, modelling Python str.lower
on the basic latin range used by the scoring code. -/
def charLower (c : Char) : Char :=
  if 65 ≤ c.toNat ∧ c.toNat ≤ 90 then Char.ofNat (c.toNat + 32) else c

/-- Model of Python str.lower: lower-case every character of the string. -/
def pyLower (s : String) : String := String.mk (s.data.map charLower)

/-- Substring test on character lists: does `pat` occur contiguously in `hay`?
Models the semantics of the Python expression `pat in hay` on strings. -/
def containsSub (hay pat : List Char) : Bool :=
  match hay with
  | [] => pat.isEmpty
  | _ :: t => pat.isPrefixOf hay || containsSub t pat

/-- Model of Python `pat in s` for strings: substring containment. -/
def strContains (s pat : String) : Bool := containsSub s.data pat.data

/-- Model of Python `s.endswith(suffix)`. -/
def strEndsWith (s suffix : String) : Bool := suffix.data.isSuffixOf s.data

/-- One spaCy token as used by the code: its lemma and its is_alpha flag. -/
structure SToken where
  lemma_ : String
  is_alpha : Bool
deriving DecidableEq

/-- The loaded spaCy language model, abstract: a tokenizer assigning to a
string its list of tokens.  The code loads one such model at startup
(`nlp = spacy.load("en_core_web_sm")`) and uses it read-only. -/
structure NLP where
  tokens : String → List SToken

/-- The dictionary returned by `analyze_resume`: five integer scores. -/
structure ScoreResult where
  overall : ℤ
  keyword : ℤ
  skill : ℤ
  readability : ℤ
  format : ℤ
deriving DecidableEq

/-- Python `int(...)` on a rational: truncation toward zero. -/
def truncInt (q : ℚ) : ℤ := if 0 ≤ q then q.floor else -((-q).floor)

/-- The token set built by `analyze_resume` from one text:
`set(token.lemma_ for token in nlp(text.lower()) if token.is_alpha)`. -/
def tokenSet (m : NLP) (text : String) : Finset String :=
  (((m.tokens (pyLower text)).filter (fun t => t.is_alpha)).map (fun t => t.lemma_)).toFinset

/-- The keyword-overlap percentage of line 73:
`(len(resume_tokens & jd_tokens) / len(jd_tokens) * 100) if jd_tokens else 0`. -/
def overlapPercent (resume_tokens jd_tokens : Finset String) : ℚ :=
  if jd_tokens.Nonempty then
    ((resume_tokens ∩ jd_tokens).card : ℚ) / (jd_tokens.card : ℚ) * 100
  else 0

/-- `keyword_match` of `analyze_resume`, as an exact rational. -/
def keyword_matchQ (m : NLP) (resume_text jd_text : String) : ℚ :=
  overlapPercent (tokenSet m resume_text) (tokenSet m jd_text)

/-- `skill_match = min(100, keyword_match + 10)`, as an exact rational. -/
def skill_matchQ (m : NLP) (resume_text jd_text : String) : ℚ :=
  min 100 (keyword_matchQ m resume_text jd_text + 10)

/-- `readability = max(30, 100 - len(resume_text or "") / 1500)`, exact. -/
def readabilityQ (resume_text : String) : ℚ :=
  max 30 (100 - (resume_text.length : ℚ) / 1500)

/-- `format_score = 90 if "experience" in (resume_text or "").lower() else 70`. -/
def format_score (resume_text : String) : ℤ :=
  if strContains (pyLower resume_text) "experience" then 90 else 70

/-- The scoring function `analyze_resume(resume_text, jd_text)` of
backend/app.py, lines 66 to 85, over the abstract spaCy model `m`.
`overall` is computed from the exact (un-truncated) component values,
exactly as the Python code averages the float values; the component
fields store the `int(...)` truncations. -/
def analyze_resume (m : NLP) (resume_text jd_text : String) : ScoreResult :=
  { overall := truncInt ((keyword_matchQ m resume_text jd_text
      + skill_matchQ m resume_text jd_text
      + readabilityQ resume_text + (format_score resume_text : ℚ)) / 4)
    keyword := truncInt (keyword_matchQ m resume_text jd_text)
    skill := truncInt (skill_matchQ m resume_text jd_text)
    readability := truncInt (readabilityQ resume_text)
    format := format_score resume_text }

/-- `extract_text(file_path)` of backend/app.py, lines 57 to 64.  The
pdfplumber and python-docx extraction bodies are external libraries,
modelled as parameters that either return the joined text or raise. -/
def extract_text (pdfExtract docxExtract : String → Except Unit String)
    (file_path : String) : Except Unit String :=
  if strEndsWith file_path ".pdf" then pdfExtract file_path
  else if strEndsWith file_path ".docx" then docxExtract file_path
  else Except.ok ""

/-- An HTTP response of the `/analyze` route: either the JSON-serialized
score result, or an error payload with its status code. -/
inductive Response where
  | ok (result : ScoreResult)
  | err (status : Nat) (message : String)
deriving DecidableEq

/-- One row of the `analyses` table as inserted by the `/analyze` route. -/
structure AnalysisRow where
  userId : Option String
  jobFile : String
  resumeFile : String
  atsScore : ℤ
  keywordMatch : ℤ
  skillMatch : ℤ
  readability : ℤ
  formatScore : ℤ
deriving DecidableEq

/-- The spaCy invocations inside `analyze_resume` can raise (for instance a
ValueError when a text exceeds the loaded model's max_length, reachable
under the 8 MB upload limit).  `nlpOk s` tells whether the call `nlp(s)` on
the already lower-cased text `s` succeeds.  The analysis step of the route
runs `analyze_resume` only when both spaCy calls succeed, résumé text first
and JD text second exactly as `analyze_resume` performs them; otherwise the
exception propagates out of the analysis. -/
def analyzeStep (m : NLP) (nlpOk : String → Bool) (resume_text jd_text : String) :
    Except Unit ScoreResult :=
  if nlpOk (pyLower resume_text) && nlpOk (pyLower jd_text) then
    Except.ok (analyze_resume m resume_text jd_text)
  else Except.error ()

/-- The extraction / analysis / persistence part of the `/analyze` route,
backend/app.py lines 137 to 156: extract the JD text, extract the résumé
text, analyze, and on success insert one row into the analyses store.
An exception in either extraction or inside the analysis (all three run in
one try block) yields the single 500 response `Processing failed` and skips
persistence; a failing insert yields the 500 response `DB error`. -/
def analyzeRoute (m : NLP) (nlpOk : String → Bool)
    (pdfExtract docxExtract : String → Except Unit String)
    (insertOk : Bool) (jd_path resume_path : String) (userId : Option String)
    (store : List AnalysisRow) : Response × List AnalysisRow :=
  match extract_text pdfExtract docxExtract jd_path with
  | Except.error _ => (Response.err 500 "Processing failed", store)
  | Except.ok jd_text =>
    match extract_text pdfExtract docxExtract resume_path with
    | Except.error _ => (Response.err 500 "Processing failed", store)
    | Except.ok resume_text =>
      match analyzeStep m nlpOk resume_text jd_text with
      | Except.error _ => (Response.err 500 "Processing failed", store)
      | Except.ok result =>
        if insertOk then
          (Response.ok result,
           store ++ [⟨userId, jd_path, resume_path, result.overall, result.keyword,
                      result.skill, result.readability, result.format⟩])
        else (Response.err 500 "DB error", store)

/-! ### Helper lemmas -/

/-- The computable `Rat.floor` agrees with the floor of the `FloorRing` order. -/
theorem ratFloor_eq_floor (q : ℚ) : q.floor = ⌊q⌋ := by
  rw [Rat.floor_def', ← Rat.floor_def]

/-- On nonnegative rationals, Python truncation is the floor. -/
theorem truncInt_of_nonneg {q : ℚ} (h : 0 ≤ q) : truncInt q = ⌊q⌋ := by
  rw [truncInt, if_pos h, ratFloor_eq_floor]

/-- ASCII lower-casing is idempotent on characters. -/
theorem charLower_idem (c : Char) : charLower (charLower c) = charLower c := by
  unfold charLower
  split
  · rename_i h
    obtain ⟨h1, h2⟩ := h
    rw [if_neg]
    intro hc
    obtain ⟨h3, h4⟩ := hc
    interval_cases hn : c.toNat <;> simp_all
  · rfl

/-- Lower-casing a string is idempotent. -/
theorem pyLower_idem (s : String) : pyLower (pyLower s) = pyLower s := by
  simp [pyLower, List.map_map, Function.comp_def, charLower_idem]

/-- The overlap percentage is nonnegative. -/
theorem overlapPercent_nonneg (R J : Finset String) : 0 ≤ overlapPercent R J := by
  unfold overlapPercent
  split
  · positivity
  · exact le_refl 0

/-- The overlap percentage never exceeds 100. -/
theorem overlapPercent_le_100 (R J : Finset String) : overlapPercent R J ≤ 100 := by
  unfold overlapPercent
  split
  · rename_i h
    have hcard : (R ∩ J).card ≤ J.card := Finset.card_le_card Finset.inter_subset_right
    have hpos : (0 : ℚ) < (J.card : ℚ) := by
      exact_mod_cast Finset.card_pos.mpr h
    have hdiv : ((R ∩ J).card : ℚ) / (J.card : ℚ) ≤ 1 := by
      rw [div_le_one hpos]
      exact_mod_cast hcard
    nlinarith
  · norm_num

/-- `skill_match` lies between 10 and 100 before truncation. -/
theorem skill_matchQ_bounds (m : NLP) (r j : String) :
    10 ≤ skill_matchQ m r j ∧ skill_matchQ m r j ≤ 100 := by
  unfold skill_matchQ
  constructor
  · have := overlapPercent_nonneg (tokenSet m r) (tokenSet m j)
    rw [le_min_iff]
    constructor
    · norm_num
    · unfold keyword_matchQ
      linarith
  · exact min_le_left _ _

/-- `readability` lies between 30 and 100 before truncation. -/
theorem readabilityQ_bounds (r : String) :
    30 ≤ readabilityQ r ∧ readabilityQ r ≤ 100 := by
  unfold readabilityQ
  constructor
  · exact le_max_left _ _
  · rw [max_le_iff]
    constructor
    · norm_num
    · have : (0 : ℚ) ≤ (r.length : ℚ) := by positivity
      linarith

/-- `format_score` is 70 or 90. -/
theorem format_score_cases (r : String) :
    format_score r = 70 ∨ format_score r = 90 := by
  unfold format_score
  split
  · right; rfl
  · left; rfl

/-! ### Claim C2 -/

/-- Claim C2: the overlap percentage equals the intersection size divided by
the JD token-set size times 100 when the JD token set is non-empty, is 0 for
an empty JD token set, and is 0 for an empty résumé token set. -/
theorem C2_overlapPercent (R J : Finset String) :
    (J.Nonempty → overlapPercent R J = ((R ∩ J).card : ℚ) / (J.card : ℚ) * 100) ∧
    overlapPercent R ∅ = 0 ∧
    overlapPercent ∅ J = 0 := by
  refine ⟨fun h => ?_, ?_, ?_⟩
  · rw [overlapPercent, if_pos h]
  · rw [overlapPercent, if_neg (by simp)]
  · unfold overlapPercent
    split
    · simp
    · rfl

/-- Witness for C2 at the concrete token sets R = a and J = a, b. -/
theorem C2_witness :
    overlapPercent (["a"].toFinset) (["a", "b"].toFinset) =
      (((["a"].toFinset : Finset String) ∩ ["a", "b"].toFinset).card : ℚ)
        / (((["a", "b"].toFinset : Finset String)).card : ℚ) * 100 :=
  (C2_overlapPercent (["a"].toFinset) (["a", "b"].toFinset)).1 (by decide)

/-! ### Claim C4 -/

/-- Claim C4: the format component is 90 exactly when the lower-cased raw
résumé text contains the substring "experience" and 70 otherwise; in
particular a résumé whose text is "experienced" scores 90. -/
theorem C4_format (m : NLP) (r j : String) :
    ((analyze_resume m r j).format =
      if strContains (pyLower r) "experience" then 90 else 70) ∧
    (analyze_resume m "experienced" j).format = 90 := by
  constructor
  · rfl
  · show format_score "experienced" = 90
    decide

/-! ### Claim C7 -/

/-- Claim C7: for every file path ending neither in ".pdf" nor in ".docx",
`extract_text` returns the empty string successfully, regardless of how the
pdf and docx extractors behave. -/
theorem C7_unsupported (pdfExtract docxExtract : String → Except Unit String)
    (path : String) (h1 : strEndsWith path ".pdf" = false)
    (h2 : strEndsWith path ".docx" = false) :
    extract_text pdfExtract docxExtract path = Except.ok "" := by
  rw [extract_text, h1, h2]
  rfl

/-- A pdf extractor that always raises. -/
def failPdf : String → Except Unit String := fun _ => Except.error ()

/-- A docx extractor that always succeeds with empty text. -/
def okDocx : String → Except Unit String := fun _ => Except.ok ""

/-- Witness for C7 at the concrete unsupported path "resume.txt". -/
theorem C7_witness : extract_text failPdf okDocx "resume.txt" = Except.ok "" :=
  C7_unsupported failPdf okDocx "resume.txt" (by decide) (by decide)

/-! ### Claim C8 -/

/-- Claim C8: normalization lower-cases before tokenizing, so a text and its
lower-cased form produce the same token set; in particular the token sets of
"Experience" and "experience" coincide. -/
theorem C8_caseInsensitive (m : NLP) (t : String) :
    tokenSet m (pyLower t) = tokenSet m t ∧
    tokenSet m "Experience" = tokenSet m "experience" := by
  constructor
  · unfold tokenSet
    rw [pyLower_idem]
  · unfold tokenSet
    rw [show pyLower "Experience" = "experience" from by decide,
        show pyLower "experience" = "experience" from by decide]

/-! ### Claim C9 -/

/-- Claim C9: the scoring pipeline is deterministic: byte-identical input
texts produce identical score records under the same loaded model. -/
theorem C9_deterministic (m : NLP) (r1 j1 r2 j2 : String)
    (hr : r1 = r2) (hj : j1 = j2) :
    analyze_resume m r1 j1 = analyze_resume m r2 j2 := by
  rw [hr, hj]

/-- The spaCy model that tokenizes every text to no tokens; used to
instantiate theorems about the abstract model at a concrete value. -/
def emptyNLP : NLP := ⟨fun _ => []⟩

/-- Witness for C9 at concrete equal inputs. -/
theorem C9_witness :
    analyze_resume emptyNLP "a" "b" = analyze_resume emptyNLP "a" "b" :=
  C9_deterministic emptyNLP "a" "b" "a" "b" rfl rfl

/-- The overlap percentage against an empty JD token set is 0. -/
theorem overlapPercent_empty_right (R : Finset String) : overlapPercent R ∅ = 0 := by
  rw [overlapPercent, if_neg (by simp)]

/-! ### Claim C5 -/

/-- Claim C5: the skill component is min(100, overlapPercent + 10) truncated
to an integer; for an empty JD text (whose tokenization is empty) and any
non-empty résumé, keyword is 0 and skill is 10. -/
theorem C5_skill (m : NLP) (r j : String) (hempty : m.tokens "" = [])
    (_hr : r ≠ "") :
    ((analyze_resume m r j).skill =
      truncInt (min 100 (overlapPercent (tokenSet m r) (tokenSet m j) + 10))) ∧
    (analyze_resume m r "").keyword = 0 ∧
    (analyze_resume m r "").skill = 10 := by
  have hts : tokenSet m "" = ∅ := by
    unfold tokenSet
    rw [show pyLower "" = "" from rfl, hempty]
    rfl
  have hkw : keyword_matchQ m r "" = 0 := by
    unfold keyword_matchQ
    rw [hts, overlapPercent_empty_right]
  refine ⟨rfl, ?_, ?_⟩
  · show truncInt (keyword_matchQ m r "") = 0
    rw [hkw, truncInt_of_nonneg (le_refl 0), Int.floor_zero]
  · show truncInt (skill_matchQ m r "") = 10
    unfold skill_matchQ
    rw [hkw, zero_add, min_eq_right (by norm_num : (10 : ℚ) ≤ 100),
      truncInt_of_nonneg (by norm_num : (0 : ℚ) ≤ 10)]
    norm_num

/-- Witness for C5 at the all-empty model, résumé "a" and JD "x". -/
theorem C5_witness :
    ((analyze_resume emptyNLP "a" "x").skill =
      truncInt (min 100 (overlapPercent (tokenSet emptyNLP "a") (tokenSet emptyNLP "x") + 10))) ∧
    (analyze_resume emptyNLP "a" "").keyword = 0 ∧
    (analyze_resume emptyNLP "a" "").skill = 10 :=
  C5_skill emptyNLP "a" "x" rfl (by decide)

/-! ### Claim C6 -/

/-- Claim C6: if extraction of either document raises, or the analysis step
raises on the extracted texts, the route produces the single 500
"Processing failed" response, returns no score result, and leaves the
analyses store unchanged. -/
theorem C6_processingFailure (m : NLP) (nlpOk : String → Bool)
    (pdfExtract docxExtract : String → Except Unit String) (insertOk : Bool)
    (jd_path resume_path : String) (userId : Option String)
    (store : List AnalysisRow)
    (h : extract_text pdfExtract docxExtract jd_path = Except.error () ∨
         extract_text pdfExtract docxExtract resume_path = Except.error () ∨
         (∀ jd_text resume_text,
            extract_text pdfExtract docxExtract jd_path = Except.ok jd_text →
            extract_text pdfExtract docxExtract resume_path = Except.ok resume_text →
            analyzeStep m nlpOk resume_text jd_text = Except.error ())) :
    analyzeRoute m nlpOk pdfExtract docxExtract insertOk jd_path resume_path userId store =
      (Response.err 500 "Processing failed", store) := by
  unfold analyzeRoute
  cases hjd : extract_text pdfExtract docxExtract jd_path with
  | error e => rfl
  | ok jd_text =>
    cases hres : extract_text pdfExtract docxExtract resume_path with
    | error e => rfl
    | ok resume_text =>
      rcases h with h | h | h
      · rw [hjd] at h
        exact Except.noConfusion h
      · rw [hres] at h
        exact Except.noConfusion h
      · dsimp only
        rw [h jd_text resume_text hjd hres]

/-- A spaCy behaviour whose invocation raises on every text. -/
def nlpRaises : String → Bool := fun _ => false

/-- Witness for C6: both documents extract successfully from their .docx
paths, but the spaCy call inside the analysis raises. -/
theorem C6_witness :
    analyzeRoute emptyNLP nlpRaises failPdf okDocx true "jd.docx" "resume.docx" none [] =
      (Response.err 500 "Processing failed", []) :=
  C6_processingFailure emptyNLP nlpRaises failPdf okDocx true "jd.docx" "resume.docx" none []
    (Or.inr (Or.inr (fun _ _ _ _ => rfl)))

/-- Truncation of a rational between two nonnegative integer bounds stays
between those bounds. -/
theorem truncInt_bounds {q : ℚ} {lo hi : ℤ} (hlo : (lo : ℚ) ≤ q)
    (hhi : q ≤ (hi : ℚ)) (h0 : 0 ≤ lo) :
    lo ≤ truncInt q ∧ truncInt q ≤ hi := by
  have hq : (0 : ℚ) ≤ q := le_trans (by exact_mod_cast h0) hlo
  rw [truncInt_of_nonneg hq]
  constructor
  · exact Int.le_floor.mpr hlo
  · calc ⌊q⌋ ≤ ⌊(hi : ℚ)⌋ := Int.floor_mono hhi
      _ = hi := Int.floor_intCast hi

/-! ### Claim C10 -/

/-- Claim C10: the stored components always satisfy keyword between 0 and 100,
skill between 10 and 100, readability between 30 and 100, format either 70
or 90, and overall at least 27. -/
theorem C10_componentBounds (m : NLP) (r j : String) :
    (0 ≤ (analyze_resume m r j).keyword ∧ (analyze_resume m r j).keyword ≤ 100) ∧
    (10 ≤ (analyze_resume m r j).skill ∧ (analyze_resume m r j).skill ≤ 100) ∧
    (30 ≤ (analyze_resume m r j).readability ∧ (analyze_resume m r j).readability ≤ 100) ∧
    ((analyze_resume m r j).format = 70 ∨ (analyze_resume m r j).format = 90) ∧
    27 ≤ (analyze_resume m r j).overall := by
  have hkw0 : (0 : ℚ) ≤ keyword_matchQ m r j := overlapPercent_nonneg _ _
  have hkw1 : keyword_matchQ m r j ≤ 100 := overlapPercent_le_100 _ _
  have hsk := skill_matchQ_bounds m r j
  have hrd := readabilityQ_bounds r
  have hfm := format_score_cases r
  have hfm70 : (70 : ℚ) ≤ (format_score r : ℚ) := by
    rcases hfm with h | h <;> rw [h] <;> norm_num
  refine ⟨?_, ?_, ?_, hfm, ?_⟩
  · exact truncInt_bounds (by exact_mod_cast hkw0) (by exact_mod_cast hkw1) (by norm_num)
  · exact truncInt_bounds (by exact_mod_cast hsk.1) (by exact_mod_cast hsk.2) (by norm_num)
  · exact truncInt_bounds (by exact_mod_cast hrd.1) (by exact_mod_cast hrd.2) (by norm_num)
  · show 27 ≤ truncInt ((keyword_matchQ m r j + skill_matchQ m r j
      + readabilityQ r + (format_score r : ℚ)) / 4)
    have hsum : (110 : ℚ) ≤ keyword_matchQ m r j + skill_matchQ m r j
        + readabilityQ r + (format_score r : ℚ) := by
      have := hsk.1
      have := hrd.1
      linarith
    have hq : (0 : ℚ) ≤ (keyword_matchQ m r j + skill_matchQ m r j
        + readabilityQ r + (format_score r : ℚ)) / 4 := by linarith
    rw [truncInt_of_nonneg hq]
    apply Int.le_floor.mpr
    push_cast
    linarith

/-! ### Claim C1 -/

/-- Floors of a four-part sum: flooring three of the summands first can lower
the floored quarter-mean by at most one. -/
theorem floor_mean4_sandwich (a b c : ℚ) (d : ℤ) :
    ⌊((⌊a⌋ + ⌊b⌋ + ⌊c⌋ + d : ℤ) : ℚ) / 4⌋ ≤ ⌊(a + b + c + (d : ℚ)) / 4⌋ ∧
    ⌊(a + b + c + (d : ℚ)) / 4⌋ ≤ ⌊((⌊a⌋ + ⌊b⌋ + ⌊c⌋ + d : ℤ) : ℚ) / 4⌋ + 1 := by
  have hfa := Int.floor_le a
  have hfb := Int.floor_le b
  have hfc := Int.floor_le c
  have hla := Int.lt_floor_add_one a
  have hlb := Int.lt_floor_add_one b
  have hlc := Int.lt_floor_add_one c
  constructor
  · apply Int.floor_mono
    push_cast
    linarith
  · have hF := Int.lt_floor_add_one (((⌊a⌋ + ⌊b⌋ + ⌊c⌋ + d : ℤ) : ℚ) / 4)
    have h1 : (a + b + c + (d : ℚ)) / 4 <
        ((⌊((⌊a⌋ + ⌊b⌋ + ⌊c⌋ + d : ℤ) : ℚ) / 4⌋ + 2 : ℤ) : ℚ) := by
      push_cast
      push_cast at hF
      linarith
    have h2 := Int.floor_lt.mpr h1
    omega

/-- A concrete spaCy-model behaviour on two small texts: three single-letter
tokens each, two of them shared.  Exhibits the averaging discrepancy. -/
def ceNLP : NLP :=
  ⟨fun s =>
    if s = "a b x" then [⟨"a", true⟩, ⟨"b", true⟩, ⟨"x", true⟩]
    else if s = "a b c" then [⟨"a", true⟩, ⟨"b", true⟩, ⟨"c", true⟩]
    else []⟩

/-- The concrete score record of the counterexample run: the code stores
overall 78 but the truncated components average to 77. -/
theorem ceNLP_score :
    analyze_resume ceNLP "a b x" "a b c" = ⟨78, 66, 76, 99, 70⟩ := by
  have hne : (tokenSet ceNLP "a b c").Nonempty := by decide
  have h2 : (tokenSet ceNLP "a b x" ∩ tokenSet ceNLP "a b c").card = 2 := by decide
  have h3 : (tokenSet ceNLP "a b c").card = 3 := by decide
  have hk : keyword_matchQ ceNLP "a b x" "a b c" = 200 / 3 := by
    unfold keyword_matchQ overlapPercent
    rw [if_pos hne, h2, h3]
    norm_num
  have hs : skill_matchQ ceNLP "a b x" "a b c" = 230 / 3 := by
    unfold skill_matchQ
    rw [hk, show (200 / 3 : ℚ) + 10 = 230 / 3 by norm_num,
      min_eq_right (by norm_num : (230 / 3 : ℚ) ≤ 100)]
  have hr : readabilityQ "a b x" = 29999 / 300 := by
    unfold readabilityQ
    rw [show "a b x".length = 5 from rfl]
    rw [max_eq_right] <;> norm_num
  have hf : format_score "a b x" = 70 := by decide
  unfold analyze_resume
  rw [hk, hs, hr, hf, ScoreResult.mk.injEq]
  refine ⟨?_, ?_, ?_, ?_, rfl⟩
  · rw [truncInt_of_nonneg (by norm_num)]
    norm_num
  · rw [truncInt_of_nonneg (by norm_num)]
    norm_num
  · rw [truncInt_of_nonneg (by norm_num)]
    norm_num
  · rw [truncInt_of_nonneg (by norm_num)]
    norm_num

/-- Claim C1 refuted: on the counterexample run the stored overall (78) is
not the truncated mean of the four stored, clamped components (77), because
the code averages the exact values before truncation. -/
theorem C1_counterexample :
    ¬ ((analyze_resume ceNLP "a b x" "a b c").overall =
      ⌊((min 100 (max 0 (analyze_resume ceNLP "a b x" "a b c").keyword)
        + min 100 (max 0 (analyze_resume ceNLP "a b x" "a b c").skill)
        + min 100 (max 0 (analyze_resume ceNLP "a b x" "a b c").readability)
        + min 100 (max 0 (analyze_resume ceNLP "a b x" "a b c").format) : ℤ) : ℚ) / 4⌋) := by
  rw [ceNLP_score]
  norm_num

/-- Claim C1 (amended): overall is the integer-truncated quarter-mean of the
exact, pre-truncation component values; relative to the four stored integer
fields it therefore equals their truncated mean or exceeds it by one. -/
theorem C1_amended (m : NLP) (r j : String) :
    (analyze_resume m r j).overall =
      ⌊(keyword_matchQ m r j + skill_matchQ m r j + readabilityQ r
        + (format_score r : ℚ)) / 4⌋ ∧
    ⌊(((analyze_resume m r j).keyword + (analyze_resume m r j).skill
      + (analyze_resume m r j).readability + (analyze_resume m r j).format : ℤ) : ℚ) / 4⌋
      ≤ (analyze_resume m r j).overall ∧
    (analyze_resume m r j).overall ≤
      ⌊(((analyze_resume m r j).keyword + (analyze_resume m r j).skill
        + (analyze_resume m r j).readability + (analyze_resume m r j).format : ℤ) : ℚ) / 4⌋ + 1 := by
  have ha0 : (0 : ℚ) ≤ keyword_matchQ m r j := overlapPercent_nonneg _ _
  have hb0 : (0 : ℚ) ≤ skill_matchQ m r j :=
    le_trans (by norm_num) (skill_matchQ_bounds m r j).1
  have hc0 : (0 : ℚ) ≤ readabilityQ r :=
    le_trans (by norm_num) (readabilityQ_bounds r).1
  have hd0 : (0 : ℚ) ≤ (format_score r : ℚ) := by
    rcases format_score_cases r with h | h <;> rw [h] <;> norm_num
  have hov : (analyze_resume m r j).overall =
      ⌊(keyword_matchQ m r j + skill_matchQ m r j + readabilityQ r
        + (format_score r : ℚ)) / 4⌋ := by
    show truncInt _ = _
    exact truncInt_of_nonneg (by apply div_nonneg <;> [linarith; norm_num])
  have hkf : (analyze_resume m r j).keyword = ⌊keyword_matchQ m r j⌋ :=
    truncInt_of_nonneg ha0
  have hsf : (analyze_resume m r j).skill = ⌊skill_matchQ m r j⌋ :=
    truncInt_of_nonneg hb0
  have hrf : (analyze_resume m r j).readability = ⌊readabilityQ r⌋ :=
    truncInt_of_nonneg hc0
  have hff : (analyze_resume m r j).format = format_score r := rfl
  refine ⟨hov, ?_, ?_⟩
  · rw [hov, hkf, hsf, hrf, hff]
    exact (floor_mean4_sandwich _ _ _ _).1
  · rw [hov, hkf, hsf, hrf, hff]
    exact (floor_mean4_sandwich _ _ _ _).2

/-! ### Claim C3 -/

/-- The token set under the empty model is always empty. -/
theorem tokenSet_emptyNLP (s : String) : tokenSet emptyNLP s = ∅ := rfl

/-- A résumé text of 7001 characters. -/
def ceLongText : String := String.mk (List.replicate 7001 'z')

/-- Claim C3 refuted: a 7001-character résumé with no JD overlap has
readability 95, far above the claimed floor value 30: the readability
formula only reaches 30 at 105000 characters. -/
theorem C3_counterexample :
    7000 < ceLongText.length ∧
    tokenSet emptyNLP ceLongText ∩ tokenSet emptyNLP "python" = ∅ ∧
    (analyze_resume emptyNLP ceLongText "python").readability ≠ 30 := by
  have hlen : ceLongText.length = 7001 := by
    unfold ceLongText
    rw [String.length_mk, List.length_replicate]
  refine ⟨by omega, by rw [tokenSet_emptyNLP, Finset.empty_inter], ?_⟩
  show truncInt (readabilityQ ceLongText) ≠ 30
  unfold readabilityQ
  rw [hlen, show ((7001 : ℕ) : ℚ) = 7001 from by norm_num,
    show max 30 (100 - (7001 : ℚ) / 1500) = 142999 / 1500 from by
      rw [max_eq_right] <;> norm_num,
    truncInt_of_nonneg (by norm_num)]
  norm_num

/-- Claim C3 (amended): for every résumé text of at least 105000 characters,
the readability component is exactly 30. -/
theorem C3_amended (m : NLP) (r j : String) (h : 105000 ≤ r.length) :
    (analyze_resume m r j).readability = 30 := by
  show truncInt (readabilityQ r) = 30
  unfold readabilityQ
  have hc : (105000 : ℚ) ≤ (r.length : ℚ) := by exact_mod_cast h
  rw [max_eq_left (by linarith), truncInt_of_nonneg (by norm_num)]
  norm_num

/-- A résumé text of 105000 characters. -/
def bigText : String := String.mk (List.replicate 105000 'z')

/-- Witness for the amended C3 at a concrete 105000-character résumé. -/
theorem C3_witness : (analyze_resume emptyNLP bigText "python").readability = 30 :=
  C3_amended emptyNLP bigText "python" (by
    unfold bigText
    rw [String.length_mk, List.length_replicate])
